import Mathlib

/-!
Verification development for the house-price prediction front end
(`src/pages/HousePricePredictor.tsx` and `src/lib/api.ts`).

JavaScript strings entering the validators are observed by the code only
through `value.trim() === ''` and `Number(value)`; a string is therefore
embedded as the pair of those two observations, with `Number` results
modelled in ℚ (`none` standing for NaN).  The form controller's React
state and handlers are embedded as an explicit state machine whose events
are the UI-level operations (field change, submit, completion of an
in-flight predict call, the sample button), with each event guarded
exactly as the UI guards it (the submit and sample buttons carry
`disabled={isLoading}` and the Enter-key handler checks `!isLoading`).
-/

namespace HousePrice

/-- Embedding of a JavaScript string as the two observations the code
makes of it: whether `value.trim() === ''`, and the value of
`Number(value)` (`none` when that is NaN). -/
structure JSString where
  trimEmpty : Bool
  num : Option ℚ
deriving DecidableEq

/-- The five form fields (`keyof HouseFormData`). -/
inductive FieldName where
  | bedrooms
  | bathrooms
  | living_area
  | condition
  | schools
deriving DecidableEq

/-- `HouseFormData`: the five raw string field values. -/
structure HouseFormData where
  bedrooms : JSString
  bathrooms : JSString
  living_area : JSString
  condition : JSString
  schools : JSString
deriving DecidableEq

/-- `FormErrors`: optional error message per field (`undefined` = `none`). -/
structure FormErrors where
  bedrooms : Option String
  bathrooms : Option String
  living_area : Option String
  condition : Option String
  schools : Option String
deriving DecidableEq

/-- Read one field of the form data by name. -/
def getField (d : HouseFormData) : FieldName → JSString
  | .bedrooms => d.bedrooms
  | .bathrooms => d.bathrooms
  | .living_area => d.living_area
  | .condition => d.condition
  | .schools => d.schools

/-- Update one field of the form data by name (`{ ...prev, [name]: value }`). -/
def setField (d : HouseFormData) : FieldName → JSString → HouseFormData
  | .bedrooms, v => { d with bedrooms := v }
  | .bathrooms, v => { d with bathrooms := v }
  | .living_area, v => { d with living_area := v }
  | .condition, v => { d with condition := v }
  | .schools, v => { d with schools := v }

/-- Read one field of the error record by name. -/
def getError (e : FormErrors) : FieldName → Option String
  | .bedrooms => e.bedrooms
  | .bathrooms => e.bathrooms
  | .living_area => e.living_area
  | .condition => e.condition
  | .schools => e.schools

/-- Update one field of the error record by name. -/
def setError (e : FormErrors) : FieldName → Option String → FormErrors
  | .bedrooms, v => { e with bedrooms := v }
  | .bathrooms, v => { e with bathrooms := v }
  | .living_area, v => { e with living_area := v }
  | .condition, v => { e with condition := v }
  | .schools, v => { e with schools := v }

/-- The empty error record (`{}`). -/
def noErrors : FormErrors := ⟨none, none, none, none, none⟩

/-- JavaScript truthiness of an optional error message: `undefined` and
the empty string are falsy, every other string is truthy. -/
def isTruthy : Option String → Bool
  | none => false
  | some m => m != ""

/-- `validateField` from the page component: the empty/NaN check followed
by the per-field range rules, returning the code's error strings.
`Number.isInteger` on a (finite) parsed value is `n.den = 1`. -/
def validateField (name : FieldName) (v : JSString) : Option String :=
  match v.num with
  | none => some ("This field is required and must be a valid number")
  | some n =>
    if v.trimEmpty then some ("This field is required and must be a valid number")
    else
      match name with
      | .bedrooms =>
        if ¬n.den = 1 ∨ n < 0 ∨ n > 20 then
          some ("Bedrooms must be an integer between 0 and 20")
        else none
      | .bathrooms =>
        if ¬n.den = 1 ∨ n < 0 ∨ n > 20 then
          some ("Bathrooms must be an integer between 0 and 20")
        else none
      | .living_area =>
        if n < 0 ∨ n > 100000 then
          some ("Living area must be between 0 and 100,000 sq ft")
        else none
      | .condition =>
        if ¬n.den = 1 ∨ n < 1 ∨ n > 5 then
          some ("Condition must be an integer between 1 and 5")
        else none
      | .schools =>
        if ¬n.den = 1 ∨ n < 0 ∨ n > 20 then
          some ("Schools must be an integer between 0 and 20")
        else none

/-- The source records `newErrors[key] = error` only when `error` is
truthy; a falsy result leaves the field absent. -/
def keepIfTruthy (e : Option String) : Option String :=
  if isTruthy e then e else none

/-- `validateForm`: validates every field, returning the fresh error
record together with the `hasErrors` flag. -/
def validateForm (d : HouseFormData) : FormErrors × Bool :=
  let eb := validateField .bedrooms d.bedrooms
  let eba := validateField .bathrooms d.bathrooms
  let ela := validateField .living_area d.living_area
  let ec := validateField .condition d.condition
  let es := validateField .schools d.schools
  (⟨keepIfTruthy eb, keepIfTruthy eba, keepIfTruthy ela, keepIfTruthy ec,
    keepIfTruthy es⟩,
   isTruthy eb || isTruthy eba || isTruthy ela || isTruthy ec || isTruthy es)

/-- `PredictionRequest` from `api.ts`: integer fields plus the fractional
living area. -/
structure PredictionRequest where
  bedrooms : ℤ
  bathrooms : ℤ
  living_area : ℚ
  condition : ℤ
  schools : ℤ
deriving DecidableEq

/-- `PredictionResponse` from `api.ts`. -/
structure PredictionResponse where
  price : ℚ
  currency : String
deriving DecidableEq

/-- `validateAndConvertForm`: converts each field with `Number`, throws
when any is NaN, otherwise builds the request with `Math.floor` on the
integer fields and the raw value for `living_area`. -/
def validateAndConvertForm (form : HouseFormData) :
    Except String PredictionRequest :=
  match form.bedrooms.num, form.bathrooms.num, form.living_area.num,
      form.condition.num, form.schools.num with
  | some b, some ba, some la, some c, some s =>
    .ok { bedrooms := b.floor
          bathrooms := ba.floor
          living_area := la
          condition := c.floor
          schools := s.floor }
  | _, _, _, _, _ => .error ("All form fields must be valid numbers")

/-- The JSON object `JSON.stringify` produces for a request, as the
ordered key/value list of its five numeric members. -/
def requestBody (r : PredictionRequest) : List (String × ℚ) :=
  [("bedrooms", (r.bedrooms : ℚ)),
   ("bathrooms", (r.bathrooms : ℚ)),
   ("living_area", r.living_area),
   ("condition", (r.condition : ℚ)),
   ("schools", (r.schools : ℚ))]

/-- Whether `predict` reaches the `fetch` call: `validateAndConvertForm`
runs first and throws past the request on failure. -/
def predictSendsRequest (form : HouseFormData) : Bool :=
  match validateAndConvertForm form with
  | .ok _ => true
  | .error _ => false

/-- The failures `predict` can surface, one per `throw` site reachable in
`predict`/`validateAndConvertForm`. -/
inductive PredictError where
  | invalidInput
  | httpError (status : ℕ) (body : String)
  | badFormat
  | timedOut
deriving DecidableEq

/-- The `Error` message carried by each failure, verbatim from the code. -/
def errorMessage : PredictError → String
  | .invalidInput => "All form fields must be valid numbers"
  | .httpError status body =>
    "Prediction failed (HTTP " ++ toString status ++ "): " ++ body
  | .badFormat => "Invalid response format: missing or invalid price/currency fields"
  | .timedOut => "Request timed out after 15 seconds. Please try again."

/-- A JavaScript `Error` as the catch block observes it: its `name` and
its `message`. -/
structure JsError where
  name : String
  message : String
deriving DecidableEq

/-- Result of `response.json()` on an ok response: it either rejects with
an error (a non-JSON body's `SyntaxError`, or an `AbortError` when the
timer fires during the body read), or yields a JSON value carrying
`data.price` when that member is a number and `data.currency` when that
member is a string. -/
inductive BodyOutcome where
  | parseError (e : JsError)
  | parsed (price : Option ℚ) (currency : Option String)
deriving DecidableEq

/-- Outcome of the `fetch` inside `predict`: the promise either rejects
with an error (a network failure's `TypeError`, or the abort timer's
`AbortError`), or a response arrives with an HTTP status, its body text,
and the body's JSON-parse outcome. -/
inductive FetchOutcome where
  | rejected (e : JsError)
  | httpResponse (status : ℕ) (text : String) (body : BodyOutcome)
deriving DecidableEq

/-- An error leaving `predict`: one of its own classified throws, or a
raw error the final catch rethrows unchanged. -/
inductive PredictThrow where
  | classified (e : PredictError)
  | rethrown (e : JsError)
deriving DecidableEq

/-- The message of an error leaving `predict`. -/
def predictThrowMessage : PredictThrow → String
  | .classified e => errorMessage e
  | .rethrown e => e.message

/-- The catch at the end of `predict`: only an `AbortError` becomes the
timeout error; every other error is rethrown as-is. -/
def rethrowOrTimeout (e : JsError) : PredictThrow :=
  if e.name == "AbortError" then .classified .timedOut else .rethrown e

/-- The response-handling phase of `predict`: `response.ok` is status
200–299; a non-ok response throws the HTTP error with the body text
(`response.json()` is never called there); on an ok response the body is
parsed — a parse rejection propagates to the catch — and a parsed body
lacking a numeric `price` or string `currency` throws the format error;
otherwise the parsed result is returned.  Errors from the rejected fetch
and from `response.json()` reach the same catch, which maps an
`AbortError` to the timeout error and rethrows the rest. -/
def handleFetchOutcome : FetchOutcome → Except PredictThrow PredictionResponse
  | .rejected e => .error (rethrowOrTimeout e)
  | .httpResponse status text body =>
    if ¬(200 ≤ status ∧ status < 300) then
      .error (.classified (.httpError status text))
    else
      match body with
      | .parseError e => .error (rethrowOrTimeout e)
      | .parsed price currency =>
        match price, currency with
        | some p, some c => .ok { price := p, currency := c }
        | _, _ => .error (.classified .badFormat)

/-- `predict` end to end: convert the form first (failing before any
request when a field is NaN), then classify the fetch outcome. -/
def predictResult (form : HouseFormData) (out : FetchOutcome) :
    Except PredictThrow PredictionResponse :=
  match validateAndConvertForm form with
  | .error _ => .error (.classified .invalidInput)
  | .ok _ => handleFetchOutcome out

/-- The `SyntaxError` that `response.json()` raises on a non-JSON
body. -/
def jsonSyntaxError : JsError :=
  { name := "SyntaxError", message := "Unexpected end of JSON input" }

/-- A success (200) response whose body is an HTML error page rather
than JSON. -/
def nonJsonOkOutcome : FetchOutcome :=
  .httpResponse 200 "<!DOCTYPE html>" (.parseError jsonSyntaxError)

/-- Outcome of the `fetch` inside `checkHealth`: either something threw
(network failure, the 5 s abort timer, or `response.json()` rejecting on
a non-JSON body), or a response arrived with an HTTP status and, from the
parsed body, `data.status` when that member is a string. -/
inductive HealthOutcome where
  | exn
  | resp (status : ℕ) (statusField : Option String)
deriving DecidableEq

/-- `checkHealth`: `false` on any exception or non-ok status, else the
comparison `data.status === 'ok'`. -/
def checkHealth : HealthOutcome → Bool
  | .exn => false
  | .resp status statusField =>
    if ¬(200 ≤ status ∧ status < 300) then false
    else statusField == some "ok"

/-- The React state owned by `HousePricePredictor`. -/
structure ControllerState where
  formData : HouseFormData
  errors : FormErrors
  isLoading : Bool
  prediction : Option PredictionResponse
  apiError : String
deriving DecidableEq

/-- `SAMPLE_DATA`: the strings '3', '2', '1800', '3', '2'. -/
def SAMPLE_DATA : HouseFormData :=
  { bedrooms := ⟨false, some 3⟩
    bathrooms := ⟨false, some 2⟩
    living_area := ⟨false, some 1800⟩
    condition := ⟨false, some 3⟩
    schools := ⟨false, some 2⟩ }

/-- The `useState` initial values: fields '3', '2', '1200', '3', '2',
no errors, not loading, no prediction, empty API error. -/
def initState : ControllerState :=
  { formData :=
      { bedrooms := ⟨false, some 3⟩
        bathrooms := ⟨false, some 2⟩
        living_area := ⟨false, some 1200⟩
        condition := ⟨false, some 3⟩
        schools := ⟨false, some 2⟩ }
    errors := noErrors
    isLoading := false
    prediction := none
    apiError := "" }

/-- The UI-level operations on the controller: editing a field, the form
submit, completion of the in-flight `predict` promise, and the sample
button. -/
inductive Event where
  | change (f : FieldName) (v : JSString)
  | submit
  | complete (outcome : Except PredictError PredictionResponse)
  | sample

/-- When each event can fire: inputs are always editable; the submit
button and the sample button carry `disabled={isLoading}` and the
Enter-key handler checks `!isLoading`, so neither fires while loading; a
predict promise settles only while one is in flight. -/
def enabled (s : ControllerState) : Event → Bool
  | .change _ _ => true
  | .submit => !s.isLoading
  | .complete _ => s.isLoading
  | .sample => !s.isLoading

/-- One controller transition.
`change` is `handleInputChange`: store the value, clear this field's
error if it was truthy, clear a truthy API error and a present
prediction.  `submit` is `handleSubmit`: revalidate everything and stop
there when `hasErrors`, otherwise set loading and clear the API error
and prediction (the `predict` call is now in flight).  `complete` is the
`try`/`catch`/`finally` tail of `handleSubmit`: record the result or the
error message and clear loading.  `sample` is `handleTrySample`. -/
def step (s : ControllerState) : Event → ControllerState
  | .change f v =>
    { s with
      formData := setField s.formData f v
      errors :=
        if isTruthy (getError s.errors f) then setError s.errors f none
        else s.errors
      apiError := if s.apiError != "" then "" else s.apiError
      prediction := if s.prediction.isSome then none else s.prediction }
  | .submit =>
    let ve := validateForm s.formData
    if ve.2 then { s with errors := ve.1 }
    else
      { s with
        errors := ve.1
        isLoading := true
        apiError := ""
        prediction := none }
  | .complete (.ok r) => { s with prediction := some r, isLoading := false }
  | .complete (.error e) =>
    { s with apiError := errorMessage e, isLoading := false }
  | .sample =>
    { s with
      formData := SAMPLE_DATA
      errors := noErrors
      apiError := ""
      prediction := none }

/-- Whether firing this event issues a `predict` network call: only a
submit whose revalidation passes does. -/
def issuesPredict (s : ControllerState) : Event → Bool
  | .submit => !(validateForm s.formData).2
  | _ => false

/-- States reachable from the initial render by enabled events. -/
inductive Reachable : ControllerState → Prop where
  | init : Reachable initState
  | step {s : ControllerState} {e : Event} :
      Reachable s → enabled s e = true → Reachable (step s e)

/-- Spec-side range rule for each field, in the spec's words: bedrooms,
bathrooms and schools are integers in [0,20], condition is an integer in
[1,5], living_area is any number in [0,100000]. -/
def specRange : FieldName → ℚ → Prop
  | .bedrooms, n => n.den = 1 ∧ 0 ≤ n ∧ n ≤ 20
  | .bathrooms, n => n.den = 1 ∧ 0 ≤ n ∧ n ≤ 20
  | .living_area, n => 0 ≤ n ∧ n ≤ 100000
  | .condition, n => n.den = 1 ∧ 1 ≤ n ∧ n ≤ 5
  | .schools, n => n.den = 1 ∧ 0 ≤ n ∧ n ≤ 20

/-- Spec-side acceptance: the value parses as a number (not blank, not
NaN) and satisfies the field's range rule. -/
def specAccepts (name : FieldName) (v : JSString) : Prop :=
  v.trimEmpty = false ∧ ∃ n, v.num = some n ∧ specRange name n

/-- Spec-side truncation toward zero, the usual reading of 'truncated to
an integer' (`Math.trunc`). -/
def ratTrunc (q : ℚ) : ℤ :=
  if q < 0 then q.ceil else q.floor

/-- The rational -1/2 written with explicit numerator and denominator so
that the kernel can evaluate it. -/
def negHalf : ℚ := ⟨-1, 2, by decide, by decide⟩

/-- Concrete form whose bedrooms entry is the string '-0.5'. -/
def negHalfForm : HouseFormData :=
  { SAMPLE_DATA with bedrooms := ⟨false, some negHalf⟩ }

/-- Concrete form whose bedrooms entry does not parse (`Number` gives
NaN). -/
def nanForm : HouseFormData :=
  { SAMPLE_DATA with bedrooms := ⟨false, none⟩ }

/-- Concrete form with numeric values the controller's validation
rejects: 50 bedrooms and condition 0. -/
def outOfRangeForm : HouseFormData :=
  { SAMPLE_DATA with
    bedrooms := ⟨false, some 50⟩
    condition := ⟨false, some 0⟩ }

/-- The request payload the sample strings convert to. -/
def sampleRequest : PredictionRequest :=
  { bedrooms := 3
    bathrooms := 2
    living_area := 1800
    condition := 3
    schools := 2 }

/-- Controller state holding a field value that fails validation. -/
def invalidFieldState : ControllerState :=
  { initState with formData := nanForm }

/-- Mutual exclusion of a shown prediction result and a shown API
error. -/
def resultErrorExclusive (s : ControllerState) : Prop :=
  ¬(s.prediction.isSome = true ∧ s.apiError ≠ "")

/-- Inductive invariant of the controller: while a call is in flight both
result slots are clear, and the slots are mutually exclusive always. -/
def controllerInv (s : ControllerState) : Prop :=
  (s.isLoading = true → s.prediction = none ∧ s.apiError = "") ∧
    resultErrorExclusive s

/-- Every error `validateField` produces carries a non-empty message. -/
theorem validateField_cases (f : FieldName) (v : JSString) :
    validateField f v = none ∨
      ∃ m, validateField f v = some m ∧ m ≠ "" := by
  cases hv : v.num <;> cases ht : v.trimEmpty <;> cases f <;>
    simp only [validateField, hv, ht, Bool.false_eq_true, if_false, if_true] <;>
    (try split) <;>
    first
      | exact Or.inl rfl
      | exact Or.inr ⟨_, rfl, by decide⟩

/-- Messages from `validateField` are never the empty string. -/
theorem validateField_ne_empty {f : FieldName} {v : JSString} {m : String}
    (h : validateField f v = some m) : m ≠ "" := by
  rcases validateField_cases f v with h0 | ⟨m', hm', hne⟩
  · rw [h0] at h; exact absurd h (by simp)
  · rw [hm'] at h
    injection h with h
    exact h ▸ hne

/-- Since its messages are truthy, recording only truthy errors keeps
exactly `validateField`'s result. -/
theorem keepIfTruthy_validateField (f : FieldName) (v : JSString) :
    keepIfTruthy (validateField f v) = validateField f v := by
  rcases validateField_cases f v with h0 | ⟨m, hm, hne⟩ <;>
    simp [keepIfTruthy, isTruthy, *]

/-- Truthiness of a `validateField` result coincides with presence. -/
theorem isTruthy_validateField (f : FieldName) (v : JSString) :
    isTruthy (validateField f v) = (validateField f v).isSome := by
  rcases validateField_cases f v with h0 | ⟨m, hm, hne⟩ <;>
    simp [isTruthy, *]

/-- The error record `validateForm` builds holds, per field, exactly
`validateField`'s verdict. -/
theorem getError_validateForm (d : HouseFormData) (f : FieldName) :
    getError (validateForm d).1 f = validateField f (getField d f) := by
  cases f <;>
    simp [validateForm, getError, getField, keepIfTruthy_validateField]

/-- `hasErrors` is set exactly when some field fails validation. -/
theorem validateForm_snd_iff (d : HouseFormData) :
    (validateForm d).2 = true ↔
      ∃ f, validateField f (getField d f) ≠ none := by
  constructor
  · intro h
    simp only [validateForm, Bool.or_eq_true, isTruthy_validateField,
      Option.isSome_iff_ne_none] at h
    rcases h with ((((h | h) | h) | h) | h)
    exacts [⟨.bedrooms, h⟩, ⟨.bathrooms, h⟩, ⟨.living_area, h⟩,
      ⟨.condition, h⟩, ⟨.schools, h⟩]
  · rintro ⟨f, hf⟩
    simp only [validateForm, Bool.or_eq_true, isTruthy_validateField,
      Option.isSome_iff_ne_none]
    cases f <;> simp only [getField] at hf <;> tauto

/-- Every message `predict` can throw is non-empty. -/
theorem errorMessage_ne_empty (e : PredictError) : errorMessage e ≠ "" := by
  cases e with
  | invalidInput => decide
  | badFormat => decide
  | timedOut => decide
  | httpError status body =>
    intro h
    have hl := congrArg String.length h
    simp only [errorMessage, String.length_append, String.length_empty] at hl
    have h24 : ("Prediction failed (HTTP ").length = 24 := by decide
    omega

/-- Each enabled transition preserves the controller invariant. -/
theorem controllerInv_step {s : ControllerState} {e : Event}
    (hinv : controllerInv s) (he : enabled s e = true) :
    controllerInv (step s e) := by
  obtain ⟨hload, hexcl⟩ := hinv
  cases e with
  | change f v =>
    have hp : (if s.prediction.isSome then none else s.prediction) =
        (none : Option PredictionResponse) := by
      cases s.prediction <;> simp
    have ha : (if s.apiError != "" then "" else s.apiError) = "" := by
      by_cases h : s.apiError = "" <;> simp [h]
    exact ⟨fun _ => ⟨by simp [step], by simp [step]⟩,
      by simp [resultErrorExclusive, step, hp, ha]⟩
  | submit =>
    have hl : s.isLoading = false := by simpa [enabled] using he
    by_cases hb : (validateForm s.formData).2 = true
    · refine ⟨fun h => absurd h (by simp [step, hb, hl]), ?_⟩
      simpa [resultErrorExclusive, step, hb] using hexcl
    · refine ⟨fun _ => ⟨?_, ?_⟩, ?_⟩ <;>
        simp [step, hb, resultErrorExclusive]
  | complete o =>
    have hl : s.isLoading = true := by simpa [enabled] using he
    obtain ⟨hpred, herr⟩ := hload hl
    cases o with
    | ok r =>
      exact ⟨fun h => absurd h (by simp [step]), by
        simp [resultErrorExclusive, step, herr]⟩
    | error e =>
      exact ⟨fun h => absurd h (by simp [step]), by
        simp [resultErrorExclusive, step, hpred]⟩
  | sample =>
    exact ⟨fun _ => ⟨by simp [step], by simp [step]⟩, by
      simp [resultErrorExclusive, step]⟩

/-- The controller invariant holds in every reachable state. -/
theorem controllerInv_reachable {s : ControllerState} (h : Reachable s) :
    controllerInv s := by
  induction h with
  | init =>
    exact ⟨fun h => absurd h (by decide),
      by simp [resultErrorExclusive, initState]⟩
  | step hr he ih => exact controllerInv_step ih he

/-- C2: the field validator accepts exactly the values that parse as a
number and satisfy the field's range rule — bedrooms, bathrooms and
schools integers in [0,20], condition an integer in [1,5], living_area
any number in [0,100000] — and on every other value it returns a
non-empty error message. -/
theorem c2_validateField_iff_range (name : FieldName) (v : JSString) :
    (validateField name v = none ↔ specAccepts name v) ∧
      (validateField name v = none ∨
        ∃ m, validateField name v = some m ∧ m ≠ "") := by
  refine ⟨?_, validateField_cases name v⟩
  cases hv : v.num with
  | none => simp [validateField, specAccepts, hv]
  | some n =>
    cases ht : v.trimEmpty <;> cases name <;>
      simp [validateField, specAccepts, specRange, hv, ht, not_or, not_lt]

/-- C5: `checkHealth` is a total boolean function of the call's outcome:
it yields true exactly when a response arrived with a success HTTP status
and its body's status field is the string 'ok'; every exceptional outcome
(network failure, timeout, unparsable body) and every non-success status
yields false. -/
theorem c5_checkHealth_iff (status : ℕ) (field : Option String) :
    checkHealth HealthOutcome.exn = false ∧
      (checkHealth (.resp status field) = true ↔
        200 ≤ status ∧ status < 300 ∧ field = some "ok") := by
  refine ⟨rfl, ?_⟩
  simp only [checkHealth]
  by_cases h : 200 ≤ status ∧ status < 300
  · simp [h, h.1, h.2, beq_iff_eq]
  · simp only [h, not_false_eq_true, if_true]
    constructor
    · intro hc
      exact absurd hc (by simp)
    · rintro ⟨h1, h2, h3⟩
      exact absurd ⟨h1, h2⟩ h

/-- C6: the documented sample strings produce exactly the documented JSON
request body: bedrooms 3, bathrooms 2, living_area 1800, condition 3,
schools 2, and the request is sent. -/
theorem c6_sample_request_body :
    validateAndConvertForm SAMPLE_DATA = .ok sampleRequest ∧
      sampleRequest.bedrooms = 3 ∧ sampleRequest.bathrooms = 2 ∧
      sampleRequest.living_area = 1800 ∧ sampleRequest.condition = 3 ∧
      sampleRequest.schools = 2 ∧
      requestBody sampleRequest =
        [("bedrooms", 3), ("bathrooms", 2), ("living_area", 1800),
         ("condition", 3), ("schools", 2)] ∧
      predictSendsRequest SAMPLE_DATA = true :=
  ⟨rfl, rfl, rfl, rfl, rfl, rfl, rfl, rfl⟩

/-- C9: from any state, the sample action overwrites the fields with the
fixed sample strings '3', '2', '1800', '3', '2' and clears every field
error, the prediction result and the API error. -/
theorem c9_sample_resets (s : ControllerState) :
    (step s .sample).formData = SAMPLE_DATA ∧
      SAMPLE_DATA.bedrooms.num = some 3 ∧
      SAMPLE_DATA.bathrooms.num = some 2 ∧
      SAMPLE_DATA.living_area.num = some 1800 ∧
      SAMPLE_DATA.condition.num = some 3 ∧
      SAMPLE_DATA.schools.num = some 2 ∧
      (step s .sample).errors = noErrors ∧
      (step s .sample).prediction = none ∧
      (step s .sample).apiError = "" :=
  ⟨rfl, rfl, rfl, rfl, rfl, rfl, rfl, rfl, rfl⟩

/-- C1: submitting issues the predict call exactly when all five fields
validate; when any field fails, the submit revalidates everything, issues
no network call, only replaces the error record (loading, result and API
error untouched), and records a non-empty message for every failing field
simultaneously. -/
theorem c1_submit_gates_on_validation (s : ControllerState) :
    (issuesPredict s .submit = true ↔
      ∀ f, validateField f (getField s.formData f) = none) ∧
      ((∃ f, validateField f (getField s.formData f) ≠ none) →
        issuesPredict s .submit = false ∧
          step s .submit = { s with errors := (validateForm s.formData).1 } ∧
          ∀ f m, validateField f (getField s.formData f) = some m →
            getError (step s .submit).errors f = some m ∧ m ≠ "") := by
  have hsnd := validateForm_snd_iff s.formData
  constructor
  · constructor
    · intro h f
      by_contra hf
      have hb : (validateForm s.formData).2 = true := hsnd.2 ⟨f, hf⟩
      simp [issuesPredict, hb] at h
    · intro hall
      have hb : (validateForm s.formData).2 = false := by
        cases hv : (validateForm s.formData).2
        · rfl
        · rcases hsnd.1 hv with ⟨f, hf⟩
          exact absurd (hall f) hf
      simp [issuesPredict, hb]
  · intro hex
    have hb : (validateForm s.formData).2 = true := hsnd.2 hex
    refine ⟨by simp [issuesPredict, hb], by simp [step, hb], fun f m hm => ?_⟩
    constructor
    · have herr := getError_validateForm s.formData f
      have hstep : (step s .submit).errors = (validateForm s.formData).1 := by
        simp [step, hb]
      rw [hstep, herr, hm]
    · exact validateField_ne_empty hm

/-- C1 witness: a concrete state with a NaN bedrooms entry, where the
submit issues no call and the bedrooms error is recorded. -/
theorem c1_witness :
    issuesPredict invalidFieldState Event.submit = false ∧
      getError (step invalidFieldState Event.submit).errors FieldName.bedrooms =
        some ("This field is required and must be a valid number") := by
  have h := (c1_submit_gates_on_validation invalidFieldState).2
    ⟨.bedrooms, by decide⟩
  exact ⟨h.1, (h.2.2 .bedrooms _ (by decide)).1⟩

/-- C3: in every reachable controller state the prediction result and the
API error are never both set, and completing an in-flight submission
(success or failure) clears the loading flag and leaves exactly one of
result and error set. -/
theorem c3_result_error_exclusive (s : ControllerState) (h : Reachable s) :
    resultErrorExclusive s ∧
      ∀ o, s.isLoading = true →
        (step s (.complete o)).isLoading = false ∧
          Xor' ((step s (.complete o)).prediction.isSome = true)
            ((step s (.complete o)).apiError ≠ "") := by
  obtain ⟨hload, hexcl⟩ := controllerInv_reachable h
  refine ⟨hexcl, fun o hl => ?_⟩
  obtain ⟨hpred, herr⟩ := hload hl
  cases o with
  | ok r =>
    refine ⟨rfl, Or.inl ⟨rfl, ?_⟩⟩
    show ¬(s.apiError ≠ "")
    simp [herr]
  | error e =>
    refine ⟨rfl, Or.inr ⟨errorMessage_ne_empty e, ?_⟩⟩
    show ¬(s.prediction.isSome = true)
    simp [hpred]

/-- C3 witness: after a valid submit from the initial state, a failing
completion sets a non-empty API error and no prediction. -/
theorem c3_witness :
    (step (step initState Event.submit)
        (Event.complete (Except.error PredictError.timedOut))).apiError ≠ "" := by
  have h := c3_result_error_exclusive (step initState .submit)
    (Reachable.step Reachable.init (by decide))
  have h2 := h.2 (.error .timedOut) (by decide)
  rcases h2.2 with ⟨hl, _⟩ | ⟨hr, _⟩
  · exact absurd hl (by decide)
  · exact hr

/-- C8: while a submission is in flight (loading set) no enabled event
can issue another predict call. -/
theorem c8_no_predict_while_loading (s : ControllerState) (e : Event)
    (_hr : Reachable s) (hl : s.isLoading = true) (he : enabled s e = true) :
    issuesPredict s e = false := by
  cases e with
  | submit => simp [enabled, hl] at he
  | change f v => rfl
  | complete o => rfl
  | sample => rfl

/-- C8 witness: in the loading state reached by a valid submit, the only
enabled events issue no predict call. -/
theorem c8_witness :
    issuesPredict (step initState Event.submit)
      (Event.change FieldName.bedrooms ⟨false, some 4⟩) = false :=
  c8_no_predict_while_loading _ _
    (Reachable.step Reachable.init (by decide)) (by decide) (by decide)

/-- C4 counterexample: with bedrooms carrying the `Number` value -1/2 the
conversion succeeds and puts `Math.floor`'s -1 into the payload, while
truncating -1/2 to an integer gives 0 — the payload field is not the
truncation the claim describes. -/
theorem c4_counterexample :
    validateAndConvertForm negHalfForm =
        .ok { bedrooms := -1, bathrooms := 2, living_area := 1800,
              condition := 3, schools := 2 } ∧
      ratTrunc negHalf = 0 ∧
      Rat.floor negHalf = -1 ∧
      Rat.floor negHalf ≠ ratTrunc negHalf :=
  ⟨rfl, by decide, by decide, by decide⟩

/-- C4 (amended): predict fails with the input error before issuing any
request when a field is NaN; when all five fields are numbers, the
payload carries bedrooms, bathrooms, condition and schools rounded down
to integers with `Math.floor` and living_area kept fractional. -/
theorem c4_convert_or_reject (d : HouseFormData) :
    ((d.bedrooms.num = none ∨ d.bathrooms.num = none ∨
        d.living_area.num = none ∨ d.condition.num = none ∨
        d.schools.num = none) →
      validateAndConvertForm d =
          .error ("All form fields must be valid numbers") ∧
        predictSendsRequest d = false ∧
        ∀ out, predictResult d out = .error (.classified .invalidInput)) ∧
      (∀ b ba la c sc, d.bedrooms.num = some b → d.bathrooms.num = some ba →
        d.living_area.num = some la → d.condition.num = some c →
        d.schools.num = some sc →
        validateAndConvertForm d =
          .ok { bedrooms := b.floor, bathrooms := ba.floor,
                living_area := la, condition := c.floor,
                schools := sc.floor }) := by
  constructor
  · intro hnan
    have herr : validateAndConvertForm d =
        .error ("All form fields must be valid numbers") := by
      unfold validateAndConvertForm
      split
      · simp_all
      · rfl
    exact ⟨herr, by simp [predictSendsRequest, herr],
      fun out => by simp [predictResult, herr]⟩
  · intro b ba la c sc hb hba hla hc hsc
    unfold validateAndConvertForm
    rw [hb, hba, hla, hc, hsc]

/-- C4 witness: the NaN form is rejected before any request; the sample
form converts to the floored payload. -/
theorem c4_witness :
    validateAndConvertForm nanForm =
        .error ("All form fields must be valid numbers") ∧
      predictSendsRequest nanForm = false ∧
      validateAndConvertForm SAMPLE_DATA = .ok sampleRequest := by
  have h1 := (c4_convert_or_reject nanForm).1 (Or.inl rfl)
  have h2 := (c4_convert_or_reject SAMPLE_DATA).2 3 2 1800 3 2
    rfl rfl rfl rfl rfl
  exact ⟨h1.1, h1.2.1, h2.trans rfl⟩

/-- C7 counterexample: a success (200) response whose body fails to parse
as JSON — a body that certainly lacks a numeric price and a string
currency — makes `predict` rethrow the raw `SyntaxError` from
`response.json()` rather than fail with the format error the claim
demands. -/
theorem c7_counterexample :
    handleFetchOutcome nonJsonOkOutcome =
        .error (.rethrown jsonSyntaxError) ∧
      PredictThrow.rethrown jsonSyntaxError ≠
        PredictThrow.classified .badFormat ∧
      predictThrowMessage (.rethrown jsonSyntaxError) ≠
        errorMessage .badFormat :=
  ⟨rfl, by decide, by decide⟩

/-- C7 (amended): classification of predict-call outcomes: an abort
(timeout) yields the dedicated timeout error; a non-success HTTP status
yields an error embedding the status code and the response body; a
success response parsed as JSON but lacking a numeric price or a string
currency yields the format error; a success response whose body fails to
parse as JSON, and a rejected fetch (network failure), rethrow the raw
error unchanged — unless that error is the abort, which yields the
timeout error; any other success response returns the parsed
price/currency result. -/
theorem c7_outcome_classification (e : JsError) (status : ℕ)
    (text : String) (price : Option ℚ) (currency : Option String) :
    (e.name = "AbortError" →
      handleFetchOutcome (.rejected e) =
        .error (.classified .timedOut)) ∧
      (e.name ≠ "AbortError" →
        handleFetchOutcome (.rejected e) = .error (.rethrown e)) ∧
      errorMessage .timedOut =
        "Request timed out after 15 seconds. Please try again." ∧
      (¬(200 ≤ status ∧ status < 300) →
        ∀ body, handleFetchOutcome (.httpResponse status text body) =
            .error (.classified (.httpError status text)) ∧
          errorMessage (.httpError status text) =
            "Prediction failed (HTTP " ++ toString status ++ "): " ++ text) ∧
      (200 ≤ status ∧ status < 300 → price = none ∨ currency = none →
        handleFetchOutcome
            (.httpResponse status text (.parsed price currency)) =
          .error (.classified .badFormat)) ∧
      (200 ≤ status ∧ status < 300 → e.name ≠ "AbortError" →
        handleFetchOutcome (.httpResponse status text (.parseError e)) =
          .error (.rethrown e)) ∧
      (200 ≤ status ∧ status < 300 → e.name = "AbortError" →
        handleFetchOutcome (.httpResponse status text (.parseError e)) =
          .error (.classified .timedOut)) ∧
      (∀ p c, 200 ≤ status ∧ status < 300 →
        handleFetchOutcome
            (.httpResponse status text (.parsed (some p) (some c))) =
          .ok { price := p, currency := c }) := by
  refine ⟨fun h => ?_, fun h => ?_, rfl, fun h body => ⟨?_, rfl⟩,
    fun h hm => ?_, fun h hn => ?_, fun h hn => ?_, fun p c h => ?_⟩
  · simp [handleFetchOutcome, rethrowOrTimeout, h]
  · simp [handleFetchOutcome, rethrowOrTimeout, beq_iff_eq, h]
  · simp [handleFetchOutcome, h]
  · rcases hm with rfl | rfl
    · cases currency <;> simp [handleFetchOutcome, h]
    · cases price <;> simp [handleFetchOutcome, h]
  · simp [handleFetchOutcome, rethrowOrTimeout, beq_iff_eq, h, hn]
  · simp [handleFetchOutcome, rethrowOrTimeout, h, hn]
  · simp [handleFetchOutcome, h]

/-- C7 witness: concrete outcomes of every class, including the rethrown
network failure and the rethrown JSON parse failure. -/
theorem c7_witness :
    handleFetchOutcome
        (.rejected ⟨"AbortError", "The operation was aborted."⟩) =
      .error (.classified .timedOut) ∧
      handleFetchOutcome (.rejected ⟨"TypeError", "Failed to fetch"⟩) =
        .error (.rethrown ⟨"TypeError", "Failed to fetch"⟩) ∧
      handleFetchOutcome
          (.httpResponse 500 "boom" (.parsed none none)) =
        .error (.classified (.httpError 500 "boom")) ∧
      handleFetchOutcome
          (.httpResponse 200 "" (.parsed none (some "USD"))) =
        .error (.classified .badFormat) ∧
      handleFetchOutcome nonJsonOkOutcome =
        .error (.rethrown jsonSyntaxError) ∧
      handleFetchOutcome
          (.httpResponse 200 "" (.parsed (some 450000) (some "USD"))) =
        .ok { price := 450000, currency := "USD" } := by
  have h1 := (c7_outcome_classification
    ⟨"AbortError", "The operation was aborted."⟩ 0 "" none none).1 rfl
  have h2 := (c7_outcome_classification
    ⟨"TypeError", "Failed to fetch"⟩ 0 "" none none).2.1 (by decide)
  have h3 := ((c7_outcome_classification ⟨"", ""⟩ 500 "boom" none
    none).2.2.2.1 (by decide) (.parsed none none)).1
  have h4 := (c7_outcome_classification ⟨"", ""⟩ 200 "" none
    (some "USD")).2.2.2.2.1 (by decide) (Or.inl rfl)
  have h5 := (c7_outcome_classification jsonSyntaxError 200
    "<!DOCTYPE html>" none none).2.2.2.2.2.1 (by decide) (by decide)
  have h6 := (c7_outcome_classification ⟨"", ""⟩ 200 "" none
    none).2.2.2.2.2.2.2 450000 "USD" (by decide)
  exact ⟨h1, h2, h3, h4, h5, h6⟩

/-- C10: predict itself enforces no range constraints: every form whose
five fields all carry numbers converts successfully and reaches the
network call, whatever the values. -/
theorem c10_predict_has_no_range_checks (d : HouseFormData)
    (b ba la c sc : ℚ) (hb : d.bedrooms.num = some b)
    (hba : d.bathrooms.num = some ba) (hla : d.living_area.num = some la)
    (hc : d.condition.num = some c) (hsc : d.schools.num = some sc) :
    predictSendsRequest d = true ∧
      validateAndConvertForm d =
        .ok { bedrooms := b.floor, bathrooms := ba.floor,
              living_area := la, condition := c.floor,
              schools := sc.floor } := by
  have hok : validateAndConvertForm d =
      .ok { bedrooms := b.floor, bathrooms := ba.floor, living_area := la,
            condition := c.floor, schools := sc.floor } := by
    unfold validateAndConvertForm
    rw [hb, hba, hla, hc, hsc]
  exact ⟨by simp [predictSendsRequest, hok], hok⟩

/-- C10 witness: a form with 50 bedrooms and condition 0 — both rejected
by the controller's validation — still reaches the network call. -/
theorem c10_witness :
    predictSendsRequest outOfRangeForm = true ∧
      validateField .bedrooms outOfRangeForm.bedrooms ≠ none ∧
      validateField .condition outOfRangeForm.condition ≠ none := by
  refine ⟨(c10_predict_has_no_range_checks outOfRangeForm 50 2 1800 0 2
    rfl rfl rfl rfl rfl).1, by decide, by decide⟩

end HousePrice
